import Mathlib

/-!
Verification development for the white-noise pomodoro application
(`white-noise-pomodoro.py`).

The source is a single Python file with two layers:

* `WhiteNoisePlayer` — owns an optional `sounddevice.OutputStream` handle
  (`_stream`) guarded by a lock; `start` opens and starts a stream when the
  handle is `None`, `stop` stops and closes it inside `try/finally` that
  always clears the handle.
* `PomodoroApp` — a single-threaded Tk state machine: `remaining_seconds`,
  `timer_running`, `timer_id`, `noise_desired`, the user toggle
  `white_noise_var`, a display label `timer_var`, driven by `_tick`
  (scheduled via `root.after`), `_start_timer`, `_stop_timer_internal`,
  `on_noise_toggle` and `_sync_noise_state`.

The page below embeds this shallowly.  Device-layer exceptions are modelled
by an oracle `Device` saying which of the three device calls (stream
construction, `stream.start()`, `stream.stop()/close()`) raises; every
operation returns the post-state paired with `Option DevErr`, the exception
that escaped it (`none` when it returned normally).  Ghost counters
(`startCalls`, `stopCalls`, `chimeCalls`) record how often the app invoked
`noise_player.start`, `noise_player.stop` and `_play_ding_async`; they are
observational only and influence no branch.
-/

namespace WNP

/-- Source constant `POMODORO_DURATION_SECONDS = 25 * 60`. -/
def POMODORO_DURATION_SECONDS : Int := 25 * 60

/-- Source constant `SHORT_BREAK_DURATION_SECONDS = 5 * 60`. -/
def SHORT_BREAK_DURATION_SECONDS : Int := 5 * 60

/-- Source dataclass `NoiseProfile(sample_rate=44100, amplitude=0.12)`.
Python floats are modelled by rationals; `0.12` is exact in binary-scaled
decimal terms only up to rounding, but every property proved about it here
depends only on `0 ≤ amplitude`. -/
structure NoiseProfile where
  sample_rate : Int
  amplitude : Rat
deriving DecidableEq, Repr

/-- Source constant `WHITE_NOISE_PROFILE = NoiseProfile()` (defaults). -/
def WHITE_NOISE_PROFILE : NoiseProfile := { sample_rate := 44100, amplitude := 12/100 }

/-- Source constant `DING_FREQUENCY_HZ = 880`. -/
def DING_FREQUENCY_HZ : Int := 880

/-- Source constant `DING_DURATION_SECONDS = 0.6` (exact rational model). -/
def DING_DURATION_SECONDS : Rat := 6/10

/-- A `sounddevice.OutputStream` handle.  `started` records whether its
`start()` method has run to completion (the constructor alone yields a
constructed-but-not-started stream). -/
structure OutputStream where
  started : Bool
deriving DecidableEq, Repr

/-- The exception raised by a failing device-layer call. -/
inductive DevErr where
  | openError
  | startError
  | stopError
deriving DecidableEq, Repr

/-- Oracle describing which device-layer calls raise: `sd.OutputStream(...)`
(`openFails`), `stream.start()` (`startFails`), and `stream.stop()` /
`stream.close()` (`stopFails`). -/
structure Device where
  openFails : Bool
  startFails : Bool
  stopFails : Bool
deriving DecidableEq, Repr

/-- A device on which every call succeeds. -/
def Device.ok : Device := { openFails := false, startFails := false, stopFails := false }

/-- Embedding of `WhiteNoisePlayer.start` (source lines 40–49).  Under the lock: if
`_stream is None`, assign `self._stream = sd.OutputStream(...)` and then
call `self._stream.start()`.  If the constructor raises, the assignment
never happens and `_stream` stays `None`; if `start()` raises, the
assignment has already happened, so `_stream` holds the constructed,
non-started stream while the exception escapes. -/
def playerStart (dev : Device) (stream : Option OutputStream) :
    Option OutputStream × Option DevErr :=
  match stream with
  | some st => (some st, none)
  | none =>
    if dev.openFails then
      (none, some DevErr.openError)
    else if dev.startFails then
      (some { started := false }, some DevErr.startError)
    else
      (some { started := true }, none)

/-- Embedding of `WhiteNoisePlayer.stop` (source lines 51–58).  Under the lock: if
`_stream is not None`, run `stop(); close()` inside `try/finally` whose
`finally` sets `_stream = None`; so the handle is cleared even when the
device call raises, and the exception still escapes. -/
def playerStop (dev : Device) (stream : Option OutputStream) :
    Option OutputStream × Option DevErr :=
  match stream with
  | none => (none, none)
  | some _ =>
    if dev.stopFails then (none, some DevErr.stopError) else (none, none)

/-- State of `PomodoroApp` restricted to the fields the timer/noise logic
reads or writes (`remaining_seconds`, `timer_running`, `timer_id`,
`noise_desired`, the Tk variables `white_noise_var` and `timer_var`, and
the player's `_stream`).  `nextId` models `root.after` handing out fresh
callback ids.  `startCalls`, `stopCalls`, `chimeCalls` are ghost counters
of how often `noise_player.start`, `noise_player.stop` and
`_play_ding_async` were invoked; no branch reads them. -/
structure AppState where
  remaining_seconds : Int
  timer_running : Bool
  timer_id : Option Nat
  noise_desired : Bool
  white_noise_var : Bool
  stream : Option OutputStream
  timer_var : String
  nextId : Nat
  startCalls : Nat
  stopCalls : Nat
  chimeCalls : Nat
deriving DecidableEq, Repr

/-- The state right after `PomodoroApp.__init__`: counter 0, not running,
no scheduled tick, noise not desired, toggle defaulted to `True`, player
idle, label `"00:00"`. -/
def initialState : AppState :=
  { remaining_seconds := 0, timer_running := false, timer_id := none,
    noise_desired := false, white_noise_var := true, stream := none,
    timer_var := "00:00", nextId := 0, startCalls := 0, stopCalls := 0,
    chimeCalls := 0 }

/-- Zero-padded two-digit rendering used by the f-string `f"{v:02}"` for a
non-negative value. -/
def pad2 (n : Nat) : String :=
  if n < 10 then "0" ++ toString n else toString n

/-- The label text computed by `_update_timer_label` (source lines
200–202): `divmod(max(remaining_seconds, 0), 60)` rendered `MM:SS`. -/
def formatTime (r : Int) : String :=
  pad2 ((max r 0).toNat / 60) ++ ":" ++ pad2 ((max r 0).toNat % 60)

/-- Embedding of `PomodoroApp._update_timer_label`. -/
def updateTimerLabel (s : AppState) : AppState :=
  { s with timer_var := formatTime s.remaining_seconds }

/-- The call `self.noise_player.start()` as seen from the app: updates the
handle, bumps the ghost counter, reports the escaped exception. -/
def appNoiseStart (dev : Device) (s : AppState) : AppState × Option DevErr :=
  ({ s with stream := (playerStart dev s.stream).1,
            startCalls := s.startCalls + 1 },
   (playerStart dev s.stream).2)

/-- The call `self.noise_player.stop()` as seen from the app. -/
def appNoiseStop (dev : Device) (s : AppState) : AppState × Option DevErr :=
  ({ s with stream := (playerStop dev s.stream).1,
            stopCalls := s.stopCalls + 1 },
   (playerStop dev s.stream).2)

/-- Embedding of `PomodoroApp._sync_noise_state` (source lines 207–214): when
`timer_running and noise_desired and white_noise_var.get()`, call
`noise_player.start()` inside `try/except Exception` (the guard prints and
swallows every exception, so none escapes); otherwise call
`noise_player.stop()` with no guard, so a stop-side exception escapes. -/
def syncNoiseState (dev : Device) (s : AppState) : AppState × Option DevErr :=
  if s.timer_running && s.noise_desired && s.white_noise_var then
    ((appNoiseStart dev s).1, none)
  else
    appNoiseStop dev s

/-- Embedding of `PomodoroApp.on_noise_toggle` together with the Tk `Checkbutton`
semantics: the widget flips `white_noise_var` before invoking the command,
which then just calls `_sync_noise_state`. -/
def onNoiseToggle (dev : Device) (s : AppState) : AppState × Option DevErr :=
  syncNoiseState dev { s with white_noise_var := !s.white_noise_var }

/-- Exception-propagating sequencing: run `f` on the state produced by `r`
only when `r` returned normally; an escaped exception skips the rest of
the caller's body (Python semantics of an uncaught raise mid-method). -/
def andThen (r : AppState × Option DevErr)
    (f : AppState → AppState × Option DevErr) : AppState × Option DevErr :=
  match r.2 with
  | some e => (r.1, some e)
  | none => f r.1

/-- Embedding of `PomodoroApp._tick` (source lines 183–198).  Early-returns when
`timer_running` is false; otherwise decrements `remaining_seconds`,
refreshes the label, and either finishes the interval (clear `running`,
`timer_id`, `noise_desired`; call `noise_player.stop()`, then
`_play_ding_async()`) or reschedules via `root.after`.  An exception from
`noise_player.stop()` escapes before `_play_ding_async` runs. -/
def tick (dev : Device) (s : AppState) : AppState × Option DevErr :=
  if s.timer_running then
    if s.remaining_seconds - 1 ≤ 0 then
      andThen (appNoiseStop dev
          { updateTimerLabel { s with remaining_seconds := s.remaining_seconds - 1 } with
            timer_running := false, timer_id := none, noise_desired := false })
        (fun s3 => ({ s3 with chimeCalls := s3.chimeCalls + 1 }, none))
    else
      ({ updateTimerLabel { s with remaining_seconds := s.remaining_seconds - 1 } with
         timer_id := some s.nextId, nextId := s.nextId + 1 }, none)
  else
    (s, none)

/-- Embedding of `PomodoroApp._stop_timer_internal` (source lines 233–241): clear
`timer_running` and `noise_desired`, cancel a pending `after` callback
(the source guards `after_cancel` behind `timer_id is not None`, but the
net effect on the state is `timer_id = None` in both branches), call
`noise_player.stop()` (unguarded: its exception escapes before the
remaining statements run), then zero `remaining_seconds` and refresh the
label. -/
def stopTimerInternal (dev : Device) (s : AppState) : AppState × Option DevErr :=
  andThen (appNoiseStop dev
      { s with timer_running := false, noise_desired := false, timer_id := none })
    (fun s3 => (updateTimerLabel { s3 with remaining_seconds := 0 }, none))

/-- Embedding of `PomodoroApp._start_timer` (source lines 174–181): stop any running
timer, install duration/running/noise-desire, refresh the label, sync the
noise player, and schedule the first tick.  An exception escaping
`_stop_timer_internal` or `_sync_noise_state` aborts the remainder. -/
def startTimer (dev : Device) (duration : Int) (wants_noise : Bool)
    (s : AppState) : AppState × Option DevErr :=
  andThen (stopTimerInternal dev s) fun s1 =>
    andThen (syncNoiseState dev
        (updateTimerLabel { s1 with remaining_seconds := duration, timer_running := true,
                                    noise_desired := wants_noise }))
      fun s3 => ({ s3 with timer_id := some s3.nextId, nextId := s3.nextId + 1 }, none)

/-- Embedding of `PomodoroApp.start_pomodoro`. -/
def startPomodoro (dev : Device) (s : AppState) : AppState × Option DevErr :=
  startTimer dev POMODORO_DURATION_SECONDS true s

/-- Embedding of `PomodoroApp.start_break`. -/
def startBreak (dev : Device) (s : AppState) : AppState × Option DevErr :=
  startTimer dev SHORT_BREAK_DURATION_SECONDS false s

/-- Iterate `_tick` n times, following the state even across an escaped
exception (the Tk event loop prints the traceback and keeps running). -/
def ticksRun (dev : Device) : Nat → AppState → AppState
  | 0, s => s
  | n + 1, s => ticksRun dev n (tick dev s).1

/-- The two control-thread events that can occur while an interval is in
flight: a scheduled `_tick` callback, and the user clicking the
white-noise `Checkbutton`. -/
inductive UserEv where
  | tickEv
  | toggleEv
deriving DecidableEq, Repr

/-- One control-thread event applied to the state (the Tk event loop
catches escaped exceptions, prints them and keeps running, so the state
evolution continues from the post-state either way). -/
def stepEv (dev : Device) (s : AppState) : UserEv → AppState
  | UserEv.tickEv => (tick dev s).1
  | UserEv.toggleEv => (onNoiseToggle dev s).1

/-- Run a sequence of control-thread events. -/
def runEvents (dev : Device) : AppState → List UserEv → AppState
  | s, [] => s
  | s, e :: es => runEvents dev (stepEv dev s e) es

/-- A concrete mid-interval state (work interval in flight, noise running)
used to instantiate the theorems. -/
def midState : AppState :=
  { initialState with
    timer_running := true, remaining_seconds := 600,
    timer_id := some 0, noise_desired := true, stream := some { started := true } }

/-- The same mid-interval state at `remaining_seconds = 742`. -/
def midState742 : AppState :=
  { midState with remaining_seconds := 742, timer_id := some 3 }

/-- The `_play_ding` sample count (source line 220):
`int(WHITE_NOISE_PROFILE.sample_rate * DING_DURATION_SECONDS)`.  Python's
`int()` truncates toward zero, which on this positive value is the floor.
The IEEE-double product `44100 * 0.6` rounds to exactly `26460.0` (the
exact product sits within half an ulp below it), so the exact rational
model computes the same integer as the float computation in the source. -/
def dingSampleCount : Int :=
  Int.floor ((WHITE_NOISE_PROFILE.sample_rate : Rat) * DING_DURATION_SECONDS)

/-- The spec's sample-count formula, `round(duration * sample_rate)`,
kept separate to compare against the source's `int(...)`. -/
def dingSampleCountSpec : Int :=
  round (DING_DURATION_SECONDS * (WHITE_NOISE_PROFILE.sample_rate : Rat))

/-- Embedding of `np.linspace(0, DING_DURATION_SECONDS, samples, endpoint=False)`
(source line 221) at index `i`: start 0, step `(stop - start) / num`,
endpoint excluded. -/
noncomputable def dingT (i : Nat) : Real :=
  (i : Real) * ((DING_DURATION_SECONDS : Real) / (dingSampleCount : Real))

/-- Embedding of `waveform = 0.3 * np.sin(2 * np.pi * DING_FREQUENCY_HZ * t)` (source
line 222) at index `i`. -/
noncomputable def dingWaveform (i : Nat) : Real :=
  0.3 * Real.sin (2 * Real.pi * (DING_FREQUENCY_HZ : Real) * dingT i)

/-- Embedding of the `WhiteNoisePlayer._callback` output (source lines 60–64): `frames`
samples written into the single output channel, where
`np.random.uniform(-1.0, 1.0, frames)` is modelled by the oracle `rnd`
(whose contract is that every draw lies in `[-1, 1]`), scaled by the
profile's amplitude.  The `float32` cast does not move a value out of
`[-amplitude, amplitude]`, so the bound proved below is exact for the
source as well. -/
def callbackOutput (profile : NoiseProfile) (rnd : Nat → Rat) (frames : Nat) :
    List Rat :=
  (List.range frames).map fun i => rnd i * profile.amplitude

/-! ## Helper lemmas -/

theorem playerStop_fst (dev : Device) (stream : Option OutputStream) :
    (playerStop dev stream).1 = none := by
  cases stream with
  | none => rfl
  | some st =>
    simp only [playerStop]
    by_cases h : dev.stopFails = true <;> simp [h]

theorem playerStop_of_stopOk (dev : Device) (stream : Option OutputStream)
    (h : dev.stopFails = false) : playerStop dev stream = (none, none) := by
  cases stream with
  | none => rfl
  | some st => simp [playerStop, h]

theorem appNoiseStop_fst (dev : Device) (s : AppState) :
    (appNoiseStop dev s).1 = { s with stream := none, stopCalls := s.stopCalls + 1 } := by
  simp [appNoiseStop, playerStop_fst]

theorem appNoiseStop_ok (dev : Device) (s : AppState) (h : dev.stopFails = false) :
    appNoiseStop dev s =
      ({ s with stream := none, stopCalls := s.stopCalls + 1 }, none) := by
  simp [appNoiseStop, playerStop_of_stopOk dev s.stream h]

theorem andThen_of_none {r : AppState × Option DevErr}
    {f : AppState → AppState × Option DevErr} (h : r.2 = none) :
    andThen r f = f r.1 := by
  simp [andThen, h]

theorem andThen_of_some {r : AppState × Option DevErr}
    {f : AppState → AppState × Option DevErr} {e : DevErr} (h : r.2 = some e) :
    andThen r f = (r.1, some e) := by
  simp [andThen, h]

theorem tick_continue (dev : Device) (s : AppState)
    (hr : s.timer_running = true) (hgt : 1 < s.remaining_seconds) :
    tick dev s =
      ({ s with
         remaining_seconds := s.remaining_seconds - 1,
         timer_var := formatTime (s.remaining_seconds - 1),
         timer_id := some s.nextId, nextId := s.nextId + 1 }, none) := by
  have hc : ¬ (s.remaining_seconds - 1 ≤ 0) := by omega
  simp [tick, hr, updateTimerLabel, hc]

theorem tick_expire (dev : Device) (s : AppState)
    (hd : dev.stopFails = false) (hr : s.timer_running = true)
    (hle : s.remaining_seconds ≤ 1) :
    tick dev s =
      ({ s with
         remaining_seconds := s.remaining_seconds - 1,
         timer_var := formatTime (s.remaining_seconds - 1),
         timer_running := false, timer_id := none, noise_desired := false,
         stream := none, stopCalls := s.stopCalls + 1,
         chimeCalls := s.chimeCalls + 1 }, none) := by
  have hc : s.remaining_seconds - 1 ≤ 0 := by omega
  simp [tick, hr, updateTimerLabel, hc, andThen, appNoiseStop_ok, hd]

/-- Running `n + 1` ticks from a running state with `n + 1` seconds left
reaches expiry exactly at the last tick: one `stop_noise` call, one chime
request, no `start` calls, timer stopped with nothing scheduled, countdown
at zero and the player handle cleared. -/
theorem ticksRun_expiry (dev : Device) (hd : dev.stopFails = false) (n : Nat) :
    ∀ s : AppState, s.timer_running = true →
      s.remaining_seconds = (n : Int) + 1 →
      (ticksRun dev (n + 1) s).stopCalls = s.stopCalls + 1 ∧
      (ticksRun dev (n + 1) s).chimeCalls = s.chimeCalls + 1 ∧
      (ticksRun dev (n + 1) s).startCalls = s.startCalls ∧
      (ticksRun dev (n + 1) s).timer_running = false ∧
      (ticksRun dev (n + 1) s).timer_id = none ∧
      (ticksRun dev (n + 1) s).remaining_seconds = 0 ∧
      (ticksRun dev (n + 1) s).stream = none := by
  induction n with
  | zero =>
    intro s hr hrem
    have e0 : ticksRun dev (0 + 1) s = (tick dev s).1 := rfl
    rw [e0, tick_expire dev s hd hr (by omega)]
    refine ⟨rfl, rfl, rfl, rfl, rfl, ?_, rfl⟩
    show s.remaining_seconds - 1 = 0
    omega
  | succ n ih =>
    intro s hr hrem
    have ht := tick_continue dev s hr (by omega)
    have e0 : ticksRun dev (n + 1 + 1) s = ticksRun dev (n + 1) (tick dev s).1 := rfl
    have hr' : ((tick dev s).1).timer_running = true := by rw [ht]; exact hr
    have hrem' : ((tick dev s).1).remaining_seconds = (n : Int) + 1 := by
      rw [ht]
      show s.remaining_seconds - 1 = (n : Int) + 1
      omega
    obtain ⟨h1, h2, h3, h4, h5, h6, h7⟩ := ih (tick dev s).1 hr' hrem'
    have hsc : ((tick dev s).1).stopCalls = s.stopCalls := by rw [ht]
    have hcc : ((tick dev s).1).chimeCalls = s.chimeCalls := by rw [ht]
    have hst : ((tick dev s).1).startCalls = s.startCalls := by rw [ht]
    rw [e0]
    exact ⟨by rw [h1, hsc], by rw [h2, hcc], by rw [h3, hst], h4, h5, h6, h7⟩

theorem syncNoiseState_snd_ok (dev : Device) (s : AppState)
    (hd : dev.stopFails = false) : (syncNoiseState dev s).2 = none := by
  unfold syncNoiseState
  by_cases hc : (s.timer_running && s.noise_desired && s.white_noise_var) = true
  · simp [hc]
  · simp [hc, appNoiseStop_ok _ _ hd]

theorem syncNoiseState_timer_frame (dev : Device) (s : AppState) :
    ((syncNoiseState dev s).1).remaining_seconds = s.remaining_seconds ∧
    ((syncNoiseState dev s).1).timer_running = s.timer_running ∧
    ((syncNoiseState dev s).1).noise_desired = s.noise_desired ∧
    ((syncNoiseState dev s).1).nextId = s.nextId := by
  unfold syncNoiseState
  by_cases hc : (s.timer_running && s.noise_desired && s.white_noise_var) = true
  · simp [hc, appNoiseStart]
  · simp [hc, appNoiseStop_fst]

theorem stopTimerInternal_snd_ok (dev : Device) (s : AppState)
    (hd : dev.stopFails = false) : (stopTimerInternal dev s).2 = none := by
  unfold stopTimerInternal
  rw [andThen_of_none (by rw [appNoiseStop_ok _ _ hd])]

theorem syncNoiseState_off (dev : Device) (s : AppState)
    (h : s.noise_desired = false) : syncNoiseState dev s = appNoiseStop dev s := by
  simp [syncNoiseState, h]

theorem andThen_noiseStop_frame (dev : Device) (s : AppState)
    (f : AppState → AppState × Option DevErr)
    (hf : ∀ u : AppState, ((f u).1).noise_desired = u.noise_desired ∧
      ((f u).1).startCalls = u.startCalls) :
    ((andThen (appNoiseStop dev s) f).1).noise_desired = s.noise_desired ∧
    ((andThen (appNoiseStop dev s) f).1).startCalls = s.startCalls := by
  cases hz : (appNoiseStop dev s).2 with
  | none =>
    rw [andThen_of_none hz]
    obtain ⟨a, b⟩ := hf ((appNoiseStop dev s).1)
    rw [a, b, appNoiseStop_fst]
    exact ⟨rfl, rfl⟩
  | some e =>
    rw [andThen_of_some hz]
    show ((appNoiseStop dev s).1).noise_desired = _ ∧
      ((appNoiseStop dev s).1).startCalls = _
    rw [appNoiseStop_fst]
    exact ⟨rfl, rfl⟩

theorem stopTimerInternal_noise_frame (dev : Device) (s : AppState) :
    ((stopTimerInternal dev s).1).noise_desired = false ∧
    ((stopTimerInternal dev s).1).startCalls = s.startCalls := by
  unfold stopTimerInternal
  obtain ⟨a, b⟩ := andThen_noiseStop_frame dev
    { s with timer_running := false, noise_desired := false, timer_id := none }
    (fun s3 => (updateTimerLabel { s3 with remaining_seconds := 0 }, none))
    (fun u => ⟨rfl, rfl⟩)
  exact ⟨a.trans rfl, b.trans rfl⟩

theorem stepEv_noise_frame (dev : Device) (s : AppState) (e : UserEv)
    (h : s.noise_desired = false) :
    (stepEv dev s e).noise_desired = false ∧
    (stepEv dev s e).startCalls = s.startCalls := by
  cases e with
  | toggleEv =>
    show ((onNoiseToggle dev s).1).noise_desired = false ∧
      ((onNoiseToggle dev s).1).startCalls = s.startCalls
    unfold onNoiseToggle
    rw [syncNoiseState_off dev _ (by exact h), appNoiseStop_fst]
    exact ⟨h, rfl⟩
  | tickEv =>
    show ((tick dev s).1).noise_desired = false ∧
      ((tick dev s).1).startCalls = s.startCalls
    unfold tick
    by_cases htr : s.timer_running = true
    · rw [if_pos htr]
      split
      · obtain ⟨a, b⟩ := andThen_noiseStop_frame dev
          { updateTimerLabel { s with remaining_seconds := s.remaining_seconds - 1 } with
            timer_running := false, timer_id := none, noise_desired := false }
          (fun s3 => ({ s3 with chimeCalls := s3.chimeCalls + 1 }, none))
          (fun u => ⟨rfl, rfl⟩)
        exact ⟨a.trans rfl, b.trans rfl⟩
      · exact ⟨h, rfl⟩
    · rw [if_neg htr]
      exact ⟨h, rfl⟩

theorem runEvents_no_start (dev : Device) (evs : List UserEv) :
    ∀ s : AppState, s.noise_desired = false →
      (runEvents dev s evs).startCalls = s.startCalls ∧
      (runEvents dev s evs).noise_desired = false := by
  induction evs with
  | nil => intro s h; exact ⟨rfl, h⟩
  | cons e es ih =>
    intro s h
    obtain ⟨h1, h2⟩ := stepEv_noise_frame dev s e h
    show (runEvents dev (stepEv dev s e) es).startCalls = s.startCalls ∧
      (runEvents dev (stepEv dev s e) es).noise_desired = false
    obtain ⟨g1, g2⟩ := ih (stepEv dev s e) h1
    exact ⟨g1.trans h2, g2⟩

theorem startBreak_noise_frame (dev : Device) (s : AppState) :
    ((startBreak dev s).1).noise_desired = false ∧
    ((startBreak dev s).1).startCalls = s.startCalls := by
  obtain ⟨hb1, hb2⟩ := stopTimerInternal_noise_frame dev s
  unfold startBreak startTimer
  cases hz : (stopTimerInternal dev s).2 with
  | some e =>
    rw [andThen_of_some hz]
    exact ⟨hb1, hb2⟩
  | none =>
    rw [andThen_of_none hz]
    rw [syncNoiseState_off dev _ (by exact rfl)]
    obtain ⟨a, b⟩ := andThen_noiseStop_frame dev
      (updateTimerLabel
        { (stopTimerInternal dev s).1 with
          remaining_seconds := SHORT_BREAK_DURATION_SECONDS, timer_running := true,
          noise_desired := false })
      (fun s3 => ({ s3 with timer_id := some s3.nextId, nextId := s3.nextId + 1 }, none))
      (fun u => ⟨rfl, rfl⟩)
    exact ⟨a.trans rfl, b.trans hb2⟩

theorem startTimer_ok (dev : Device) (d : Int) (w : Bool) (s : AppState)
    (hd : dev.stopFails = false) :
    (startTimer dev d w s).2 = none ∧
    ((startTimer dev d w s).1).timer_running = true ∧
    ((startTimer dev d w s).1).remaining_seconds = d := by
  unfold startTimer
  rw [andThen_of_none (stopTimerInternal_snd_ok dev s hd)]
  rw [andThen_of_none (syncNoiseState_snd_ok dev _ hd)]
  obtain ⟨f1, f2, _, _⟩ := syncNoiseState_timer_frame dev
    (updateTimerLabel
      { (stopTimerInternal dev s).1 with
        remaining_seconds := d, timer_running := true, noise_desired := w })
  refine ⟨rfl, ?_, ?_⟩
  · show ((syncNoiseState dev _).1).timer_running = true
    rw [f2]; rfl
  · show ((syncNoiseState dev _).1).remaining_seconds = d
    rw [f1]; rfl

theorem dingSampleCount_eq : dingSampleCount = 26460 := by
  have h : ((WHITE_NOISE_PROFILE.sample_rate : Rat) * DING_DURATION_SECONDS) =
      ((26460 : Int) : Rat) := by
    norm_num [WHITE_NOISE_PROFILE, DING_DURATION_SECONDS]
  rw [dingSampleCount, h, Int.floor_intCast]

theorem dingSampleCountSpec_eq : dingSampleCountSpec = 26460 := by
  have h : (DING_DURATION_SECONDS * (WHITE_NOISE_PROFILE.sample_rate : Rat)) =
      ((26460 : Int) : Rat) := by
    norm_num [WHITE_NOISE_PROFILE, DING_DURATION_SECONDS]
  rw [dingSampleCountSpec, h, round_intCast]

theorem dingT_eq (i : Nat) : dingT i = (i : Real) * ((6 / 10 : Real) / 26460) := by
  unfold dingT
  rw [dingSampleCount_eq]
  norm_num [DING_DURATION_SECONDS]

/-! ## Claims about `WhiteNoisePlayer` -/

/-- Claim C1, counterexample: on a device where the `OutputStream`
constructor succeeds but `stream.start()` raises, `WhiteNoisePlayer.start`
from the idle state raises and nevertheless leaves `_stream` holding the
constructed handle — not `None` as the claim demands for every device-layer
exception during start. -/
theorem c1_counterexample :
    (playerStart { openFails := false, startFails := true, stopFails := false } none).2 =
        some DevErr.startError ∧
    (playerStart { openFails := false, startFails := true, stopFails := false } none).1 ≠
        none := by
  decide

/-- Claim C1, amended: on every device — whether the constructor
`sd.OutputStream(...)` or the subsequent `stream.start()` call raises —
the exception raised by `noise_player.start()` is caught by
`_sync_noise_state`'s `try/except` guard, so it never escapes into the
timer or controller layers; and if the *constructor* is what raises, the
assignment to `_stream` never happens, so the handle stays `None` and the
engine is left idle. -/
theorem c1_start_failure_idle (dev : Device) (s : AppState)
    (hr : s.timer_running = true) (hd : s.noise_desired = true)
    (hw : s.white_noise_var = true) :
    (syncNoiseState dev s).2 = none ∧
    (dev.openFails = true →
      playerStart dev none = (none, some DevErr.openError) ∧
      (s.stream = none → ((syncNoiseState dev s).1).stream = none)) := by
  refine ⟨?_, fun ho => ⟨?_, fun hs => ?_⟩⟩
  · simp [syncNoiseState, hr, hd, hw]
  · simp [playerStart, ho]
  · simp [syncNoiseState, hr, hd, hw, appNoiseStart, hs, playerStart, ho]

/-- Witness for C1 (amended): the guard swallows the `stream.start()`
failure on a `startFails` device, and a constructor failure on an
`openFails` device is also swallowed while the handle stays `None`. -/
theorem c1_start_failure_idle_witness :
    ({ initialState with timer_running := true, noise_desired := true } : AppState).timer_running = true ∧
    ({ initialState with timer_running := true, noise_desired := true } : AppState).noise_desired = true ∧
    ({ initialState with timer_running := true, noise_desired := true } : AppState).white_noise_var = true ∧
    (syncNoiseState { openFails := false, startFails := true, stopFails := false }
      { initialState with timer_running := true, noise_desired := true }).2 = none ∧
    (syncNoiseState { openFails := true, startFails := false, stopFails := false }
      { initialState with timer_running := true, noise_desired := true }).2 = none ∧
    playerStart { openFails := true, startFails := false, stopFails := false } none =
      (none, some DevErr.openError) ∧
    ((syncNoiseState { openFails := true, startFails := false, stopFails := false }
      { initialState with timer_running := true, noise_desired := true }).1).stream = none :=
  ⟨rfl, rfl, rfl,
   (c1_start_failure_idle { openFails := false, startFails := true, stopFails := false }
     { initialState with timer_running := true, noise_desired := true } rfl rfl rfl).1,
   (c1_start_failure_idle { openFails := true, startFails := false, stopFails := false }
     { initialState with timer_running := true, noise_desired := true } rfl rfl rfl).1,
   ((c1_start_failure_idle { openFails := true, startFails := false, stopFails := false }
     { initialState with timer_running := true, noise_desired := true } rfl rfl rfl).2 rfl).1,
   ((c1_start_failure_idle { openFails := true, startFails := false, stopFails := false }
     { initialState with timer_running := true, noise_desired := true } rfl rfl rfl).2 rfl).2 rfl⟩

/-- Claim C3: `WhiteNoisePlayer.start` is idempotent — a second `start`
finds `_stream` already set, opens nothing and raises nothing, and for
every device and every starting handle the state after two calls equals
the state after one.  (In the source, "state is Running" is by definition
`_stream is not None`, so the handle-iff-Running invariant is the identity
here.) -/
theorem c3_start_idempotent (dev : Device) (stream : Option OutputStream) :
    (∀ st : OutputStream, playerStart dev (some st) = (some st, none)) ∧
    (playerStart dev (playerStart dev stream).1).1 = (playerStart dev stream).1 := by
  refine ⟨fun st => rfl, ?_⟩
  cases stream with
  | some st => rfl
  | none =>
    simp only [playerStart]
    by_cases ho : dev.openFails = true <;>
      by_cases hs : dev.startFails = true <;>
        simp [playerStart, ho, hs]

/-- Claim C10: `WhiteNoisePlayer.stop` always leaves `_stream = None`
(the `finally` branch clears it even when `stop()`/`close()` raise), and a
subsequent `start` on a healthy device opens a fresh, started stream. -/
theorem c10_stop_clears_handle (dev : Device) (stream : Option OutputStream) :
    (playerStop dev stream).1 = none ∧
    (dev.openFails = false → dev.startFails = false →
      playerStart dev (playerStop dev stream).1 = (some { started := true }, none)) := by
  refine ⟨playerStop_fst dev stream, fun ho hs => ?_⟩
  rw [playerStop_fst dev stream]
  simp [playerStart, ho, hs]

/-- Witness for C10 on the always-succeeding device, stopping from a
running stream that fails to stop cleanly is covered by `dev` generality;
here the healthy device and a running handle. -/
theorem c10_stop_clears_handle_witness :
    (playerStop Device.ok (some { started := true })).1 = none ∧
    playerStart Device.ok (playerStop Device.ok (some { started := true })).1 =
      (some { started := true }, none) :=
  ⟨(c10_stop_clears_handle Device.ok (some { started := true })).1,
   (c10_stop_clears_handle Device.ok (some { started := true })).2 rfl rfl⟩

/-! ## Claims about the timer state machine -/

/-- Claim C4: toggling the noise preference off mid-interval
(`on_noise_toggle` after the Checkbutton flipped `white_noise_var` from
`True` to `False`) stops the noise player immediately (the handle is
`None` afterwards, on every device) and changes no timer field:
`remaining_seconds` stays `r`, and `timer_running`, `timer_id`,
`noise_desired` and the label are untouched. -/
theorem c4_toggle_off_keeps_timer (dev : Device) (s : AppState) (r : Int)
    (hw : s.white_noise_var = true) (hr : s.timer_running = true)
    (hrem : s.remaining_seconds = r) (hpos : 0 < r) :
    ((onNoiseToggle dev s).1).stream = none ∧
    ((onNoiseToggle dev s).1).remaining_seconds = r ∧
    ((onNoiseToggle dev s).1).timer_running = true ∧
    ((onNoiseToggle dev s).1).timer_id = s.timer_id ∧
    ((onNoiseToggle dev s).1).noise_desired = s.noise_desired ∧
    ((onNoiseToggle dev s).1).timer_var = s.timer_var := by
  unfold onNoiseToggle syncNoiseState
  simp [hw, appNoiseStop_fst, hrem, hr]

/-- Witness for C4 at the concrete mid-interval state. -/
theorem c4_toggle_off_keeps_timer_witness :
    midState.white_noise_var = true ∧ midState.timer_running = true ∧
    midState.remaining_seconds = 600 ∧ ((0 : Int) < 600) ∧
    (((onNoiseToggle Device.ok midState).1).stream = none ∧
      ((onNoiseToggle Device.ok midState).1).remaining_seconds = 600 ∧
      ((onNoiseToggle Device.ok midState).1).timer_running = true ∧
      ((onNoiseToggle Device.ok midState).1).timer_id = midState.timer_id ∧
      ((onNoiseToggle Device.ok midState).1).noise_desired = midState.noise_desired ∧
      ((onNoiseToggle Device.ok midState).1).timer_var = midState.timer_var) :=
  ⟨rfl, rfl, rfl, by decide,
   c4_toggle_off_keeps_timer Device.ok midState 600 rfl rfl rfl (by decide)⟩

/-- Claim C7: `_stop_timer_internal` (the cancel path) on a device whose
stop call succeeds returns normally with `timer_running = false`,
`remaining_seconds = 0`, no pending scheduled tick, a `stop_noise` request
issued, and the player handle `None` — the audio engine is idle
immediately after cancel returns, from any timer state. -/
theorem c7_cancel_resets (dev : Device) (s : AppState) (hd : dev.stopFails = false) :
    (stopTimerInternal dev s).2 = none ∧
    ((stopTimerInternal dev s).1).timer_running = false ∧
    ((stopTimerInternal dev s).1).remaining_seconds = 0 ∧
    ((stopTimerInternal dev s).1).timer_id = none ∧
    ((stopTimerInternal dev s).1).stream = none ∧
    ((stopTimerInternal dev s).1).stopCalls = s.stopCalls + 1 := by
  unfold stopTimerInternal
  rw [andThen_of_none (by rw [appNoiseStop_ok _ _ hd]), appNoiseStop_fst]
  simp [updateTimerLabel]

/-- Witness for C7: cancelling mid-interval at `remaining_seconds = 742`. -/
theorem c7_cancel_resets_witness :
    Device.ok.stopFails = false ∧
    ((stopTimerInternal Device.ok midState742).2 = none ∧
      ((stopTimerInternal Device.ok midState742).1).timer_running = false ∧
      ((stopTimerInternal Device.ok midState742).1).remaining_seconds = 0 ∧
      ((stopTimerInternal Device.ok midState742).1).timer_id = none ∧
      ((stopTimerInternal Device.ok midState742).1).stream = none ∧
      ((stopTimerInternal Device.ok midState742).1).stopCalls = midState742.stopCalls + 1) :=
  ⟨rfl, c7_cancel_resets Device.ok midState742 rfl⟩

/-- Claim C2: while the timer runs, one `_tick` decrements
`remaining_seconds` by exactly one; if the result is ≤ 0 it stops the
timer, forces noise off, calls `stop_noise` exactly once and requests the
chime exactly once with no further tick scheduled, and otherwise it only
reschedules itself.  Consequently a freshly started Work interval
(1500 s), ticked 1500 times, produces exactly one `stop_noise` call and
exactly one chime request, with the timer stopped and nothing scheduled. -/
theorem c2_tick_countdown_and_completion (dev : Device) (s : AppState)
    (hd : dev.stopFails = false) :
    (s.timer_running = true →
      ((tick dev s).1).remaining_seconds = s.remaining_seconds - 1 ∧
      (s.remaining_seconds - 1 ≤ 0 →
        ((tick dev s).1).timer_running = false ∧
        ((tick dev s).1).timer_id = none ∧
        ((tick dev s).1).noise_desired = false ∧
        ((tick dev s).1).stopCalls = s.stopCalls + 1 ∧
        ((tick dev s).1).chimeCalls = s.chimeCalls + 1 ∧
        (tick dev s).2 = none) ∧
      (0 < s.remaining_seconds - 1 →
        ((tick dev s).1).timer_running = true ∧
        ((tick dev s).1).timer_id = some s.nextId ∧
        ((tick dev s).1).stopCalls = s.stopCalls ∧
        ((tick dev s).1).chimeCalls = s.chimeCalls ∧
        (tick dev s).2 = none)) ∧
    ((startPomodoro dev s).2 = none ∧
      (ticksRun dev 1500 (startPomodoro dev s).1).stopCalls =
        ((startPomodoro dev s).1).stopCalls + 1 ∧
      (ticksRun dev 1500 (startPomodoro dev s).1).chimeCalls =
        ((startPomodoro dev s).1).chimeCalls + 1 ∧
      (ticksRun dev 1500 (startPomodoro dev s).1).timer_running = false ∧
      (ticksRun dev 1500 (startPomodoro dev s).1).timer_id = none) := by
  constructor
  · intro hr
    refine ⟨?_, ?_, ?_⟩
    · by_cases hc : s.remaining_seconds - 1 ≤ 0
      · rw [tick_expire dev s hd hr (by omega)]
      · rw [tick_continue dev s hr (by omega)]
    · intro hle
      rw [tick_expire dev s hd hr (by omega)]
      exact ⟨rfl, rfl, rfl, rfl, rfl, rfl⟩
    · intro hgt
      rw [tick_continue dev s hr (by omega)]
      exact ⟨hr, rfl, rfl, rfl, rfl⟩
  · simp only [startPomodoro]
    obtain ⟨h0, h1, h2⟩ := startTimer_ok dev POMODORO_DURATION_SECONDS true s hd
    have hrem : ((startTimer dev POMODORO_DURATION_SECONDS true s).1).remaining_seconds
        = ((1499 : Nat) : Int) + 1 := by
      rw [h2]; norm_num [POMODORO_DURATION_SECONDS]
    obtain ⟨g1, g2, g3, g4, g5, g6, g7⟩ :=
      ticksRun_expiry dev hd 1499 (startTimer dev POMODORO_DURATION_SECONDS true s).1 h1 hrem
    have e : (1499 : Nat) + 1 = 1500 := by norm_num
    rw [e] at g1 g2 g4 g5
    exact ⟨h0, g1, g2, g4, g5⟩

/-- Witness for C2 at the always-succeeding device and the concrete
mid-interval state. -/
theorem c2_tick_countdown_and_completion_witness :
    Device.ok.stopFails = false ∧
    ((midState.timer_running = true →
      ((tick Device.ok midState).1).remaining_seconds = midState.remaining_seconds - 1 ∧
      (midState.remaining_seconds - 1 ≤ 0 →
        ((tick Device.ok midState).1).timer_running = false ∧
        ((tick Device.ok midState).1).timer_id = none ∧
        ((tick Device.ok midState).1).noise_desired = false ∧
        ((tick Device.ok midState).1).stopCalls = midState.stopCalls + 1 ∧
        ((tick Device.ok midState).1).chimeCalls = midState.chimeCalls + 1 ∧
        (tick Device.ok midState).2 = none) ∧
      (0 < midState.remaining_seconds - 1 →
        ((tick Device.ok midState).1).timer_running = true ∧
        ((tick Device.ok midState).1).timer_id = some midState.nextId ∧
        ((tick Device.ok midState).1).stopCalls = midState.stopCalls ∧
        ((tick Device.ok midState).1).chimeCalls = midState.chimeCalls ∧
        (tick Device.ok midState).2 = none)) ∧
    ((startPomodoro Device.ok midState).2 = none ∧
      (ticksRun Device.ok 1500 (startPomodoro Device.ok midState).1).stopCalls =
        ((startPomodoro Device.ok midState).1).stopCalls + 1 ∧
      (ticksRun Device.ok 1500 (startPomodoro Device.ok midState).1).chimeCalls =
        ((startPomodoro Device.ok midState).1).chimeCalls + 1 ∧
      (ticksRun Device.ok 1500 (startPomodoro Device.ok midState).1).timer_running = false ∧
      (ticksRun Device.ok 1500 (startPomodoro Device.ok midState).1).timer_id = none)) :=
  ⟨rfl, c2_tick_countdown_and_completion Device.ok midState rfl⟩

/-- Claim C8: a Break interval never triggers noise.  `start_break` runs
with `wants_noise = False`, so `noise_desired` is false afterwards; from
there, every sequence of ticks and user toggle events (on any device,
with the toggle in any position and flipped arbitrarily often) keeps
`noise_desired` false and never invokes `noise_player.start` — the ghost
`startCalls` counter stays at its pre-break value throughout. -/
theorem c8_break_never_starts_noise (dev : Device) (s : AppState)
    (evs : List UserEv) :
    ((startBreak dev s).1).noise_desired = false ∧
    ((startBreak dev s).1).startCalls = s.startCalls ∧
    (runEvents dev ((startBreak dev s).1) evs).startCalls = s.startCalls ∧
    (runEvents dev ((startBreak dev s).1) evs).noise_desired = false := by
  obtain ⟨hnd, hsc⟩ := startBreak_noise_frame dev s
  obtain ⟨g1, g2⟩ := runEvents_no_start dev evs ((startBreak dev s).1) hnd
  exact ⟨hnd, hsc, g1.trans hsc, g2⟩

/-- Claim C9: a stale `_tick` (one firing with `timer_running = false`,
e.g. after cancellation) is a complete no-op — it returns the state
unchanged (so `remaining_seconds`, the label, `timer_id` and the player
handle are all untouched), raises nothing and schedules nothing. -/
theorem c9_stale_tick_noop (dev : Device) (s : AppState)
    (h : s.timer_running = false) : tick dev s = (s, none) := by
  simp [tick, h]

/-- Witness for C9 at the post-`__init__` state. -/
theorem c9_stale_tick_noop_witness :
    initialState.timer_running = false ∧
    tick Device.ok initialState = (initialState, none) :=
  ⟨rfl, c9_stale_tick_noop Device.ok initialState rfl⟩

/-! ## Claims about the audio buffers -/

/-- Claim C5: for the default parameters (880 Hz, 0.6 s, 44100 Hz) the
chime buffer has exactly `round(0.6 * 44100) = 26460` samples (the
source's `int(...)` and the spec's `round(...)` agree on this value), and
sample `i` is `0.3 * sin(2π · 880 · t_i)` where the `t_i = i · (0.6/26460)`
are uniformly spaced over `[0, 0.6)` with the endpoint excluded. -/
theorem c5_ding_buffer (i : Nat) (hi : i < 26460) :
    dingSampleCount = 26460 ∧
    dingSampleCountSpec = 26460 ∧
    (0 ≤ dingT i ∧ dingT i < 6 / 10) ∧
    dingT (i + 1) - dingT i = (6 / 10 : Real) / 26460 ∧
    dingWaveform i =
      0.3 * Real.sin (2 * Real.pi * 880 * ((i : Real) * ((6 / 10 : Real) / 26460))) := by
  refine ⟨dingSampleCount_eq, dingSampleCountSpec_eq, ⟨?_, ?_⟩, ?_, ?_⟩
  · rw [dingT_eq]
    positivity
  · rw [dingT_eq]
    have hi' : (i : Real) < 26460 := by exact_mod_cast hi
    calc (i : Real) * ((6 / 10 : Real) / 26460)
        < 26460 * ((6 / 10 : Real) / 26460) := by
          exact mul_lt_mul_of_pos_right hi' (by norm_num)
      _ = 6 / 10 := by norm_num
  · rw [dingT_eq, dingT_eq]
    push_cast
    ring
  · unfold dingWaveform
    rw [dingT_eq]
    norm_num [DING_FREQUENCY_HZ]

/-- Witness for C5 at the first sample. -/
theorem c5_ding_buffer_witness :
    (0 : Nat) < 26460 ∧
    (dingSampleCount = 26460 ∧
      dingSampleCountSpec = 26460 ∧
      (0 ≤ dingT 0 ∧ dingT 0 < 6 / 10) ∧
      dingT (0 + 1) - dingT 0 = (6 / 10 : Real) / 26460 ∧
      dingWaveform 0 =
        0.3 * Real.sin (2 * Real.pi * 880 * ((0 : Real) * ((6 / 10 : Real) / 26460)))) :=
  ⟨by norm_num, by
    have h := c5_ding_buffer 0 (by norm_num)
    simpa using h⟩

/-- Claim C6: for every requested frame count `n`, the callback writes
exactly `n` samples into the output channel, each a uniform draw from
`[-1, 1]` scaled by `profile.amplitude`, so every written sample lies in
`[-amplitude, amplitude]`. -/
theorem c6_callback_bounds (profile : NoiseProfile) (rnd : Nat → Rat) (frames : Nat)
    (hamp : 0 ≤ profile.amplitude)
    (hrnd : ∀ i : Nat, -1 ≤ rnd i ∧ rnd i ≤ 1) :
    (callbackOutput profile rnd frames).length = frames ∧
    ∀ x ∈ callbackOutput profile rnd frames,
      -profile.amplitude ≤ x ∧ x ≤ profile.amplitude := by
  constructor
  · simp [callbackOutput]
  · intro x hx
    simp only [callbackOutput, List.mem_map, List.mem_range] at hx
    obtain ⟨i, _, rfl⟩ := hx
    obtain ⟨h1, h2⟩ := hrnd i
    constructor
    · calc -profile.amplitude = -1 * profile.amplitude := by ring
        _ ≤ rnd i * profile.amplitude := mul_le_mul_of_nonneg_right h1 hamp
    · calc rnd i * profile.amplitude ≤ 1 * profile.amplitude :=
          mul_le_mul_of_nonneg_right h2 hamp
        _ = profile.amplitude := one_mul _

/-- Witness for C6 on the default profile with a concrete admissible
random draw and four frames. -/
theorem c6_callback_bounds_witness :
    0 ≤ WHITE_NOISE_PROFILE.amplitude ∧
    ((callbackOutput WHITE_NOISE_PROFILE (fun _ => 1 / 2) 4).length = 4 ∧
      ∀ x ∈ callbackOutput WHITE_NOISE_PROFILE (fun _ => 1 / 2) 4,
        -WHITE_NOISE_PROFILE.amplitude ≤ x ∧ x ≤ WHITE_NOISE_PROFILE.amplitude) :=
  ⟨by norm_num [WHITE_NOISE_PROFILE],
   c6_callback_bounds WHITE_NOISE_PROFILE (fun _ => 1 / 2) 4
     (by norm_num [WHITE_NOISE_PROFILE]) (fun i => by norm_num)⟩

end WNP
